import Mathlib

set_option maxHeartbeats 1000000
set_option maxRecDepth 8000

/-!
Shallow embedding of `src/scripts/generate-security-report.py`
(`SecurityReportGenerator` and `main`).

Modelling conventions:
* Parsed JSON values are the inductive `Json`.  JSON numbers are restricted to
  integers (no input examined by any claim involves a non-integral number, and
  the program never does arithmetic on them).  Objects are association lists;
  `json.load` produces dictionaries with unique keys, so lookup takes the first
  match.
* Python exceptions relevant to the script are the enumeration `PyErr`.
  Fallible operations return `Except PyErr _`.  A `.error` escaping a loader
  models an uncaught exception that aborts `main` (traceback, non-zero exit).
* Each input file is a `FileInput`: `missing` (open raises `FileNotFoundError`),
  `malformed` (`json.load` raises `JSONDecodeError`), or `json j` (the parsed
  value).
* `Report` is `self.report_data`.  The constant fields `scan_date`,
  `project_name` and `compliance_framework` (a timestamp and two fixed strings
  that no loader or classifier reads) are omitted.
* Python `x == 'LIT'` / `x in ['A', 'B']` on a JSON-derived value is
  `Json.eqStr`: no JSON value compares equal to a string except an equal
  string.
* Python truthiness, `len`, iteration, `d.get(k, default)` (raises
  `AttributeError` on a non-dict), `d[k]` (raises `KeyError` / `TypeError`) and
  `x[0]` (raises `IndexError` / `KeyError` / `TypeError`) are `Json.truthy`,
  `pyLen`, `pyIter`, `dget`, `getItem` and `pyIndex0`.
* `str(x)` / f-string interpolation is `pyStr` (with `pyRepr` for elements of
  containers; the quote-escaping Python `repr` performs inside strings is not
  reproduced — no claim inspects the rendering of a container).
-/

inductive Json where
  | null
  | bool (b : Bool)
  | num (n : Int)
  | str (s : String)
  | arr (elems : List Json)
  | obj (fields : List (String × Json))

inductive PyErr where
  | fileNotFound
  | jsonDecode
  | keyError
  | attributeError
  | typeError
  | indexError
deriving DecidableEq

/-- One scanner-output file as seen by a loader. -/
inductive FileInput where
  | missing
  | malformed
  | json (j : Json)

def Json.isObj : Json → Bool
  | .obj _ => true
  | _ => false

/-- First value bound to key `k` when `j` is an object, else `none`. -/
def jfind (j : Json) (k : String) : Option Json :=
  match j with
  | .obj kvs => (kvs.find? (fun kv => kv.1 == k)).map (fun kv => kv.2)
  | _ => none

/-- Python `j.get(k, d)`: default lookup on a dict, `AttributeError` otherwise. -/
def dget (j : Json) (k : String) (d : Json) : Except PyErr Json :=
  match j with
  | .obj _ => .ok ((jfind j k).getD d)
  | _ => .error .attributeError

/-- Python `j[k]` with a string key. -/
def getItem (j : Json) (k : String) : Except PyErr Json :=
  match j with
  | .obj _ =>
    match jfind j k with
    | some v => .ok v
    | none => .error .keyError
  | _ => .error .typeError

/-- Python truthiness of a JSON-derived value. -/
def Json.truthy : Json → Bool
  | .null => false
  | .bool b => b
  | .num n => n != 0
  | .str s => s != ""
  | .arr xs => !xs.isEmpty
  | .obj kvs => !kvs.isEmpty

/-- Python `len` on a JSON-derived value. -/
def pyLen : Json → Except PyErr Nat
  | .str s => .ok s.length
  | .arr xs => .ok xs.length
  | .obj kvs => .ok kvs.length
  | _ => .error .typeError

/-- Python `for x in j`: lists yield elements, dicts their keys, strings their
characters; anything else raises `TypeError`. -/
def pyIter : Json → Except PyErr (List Json)
  | .arr xs => .ok xs
  | .obj kvs => .ok (kvs.map (fun kv => Json.str kv.1))
  | .str s => .ok (s.toList.map (fun c => Json.str (String.singleton c)))
  | _ => .error .typeError

/-- Python `x[0]`. -/
def pyIndex0 : Json → Except PyErr Json
  | .arr [] => .error .indexError
  | .arr (x :: _) => .ok x
  | .str s =>
    match s.toList with
    | [] => .error .indexError
    | c :: _ => .ok (.str (String.singleton c))
  | .obj _ => .error .keyError
  | _ => .error .typeError

/-- Python `x == "lit"` for a JSON-derived `x` (also one disjunct of
`x in ["A", "B"]`). -/
def Json.eqStr : Json → String → Bool
  | .str s, t => s == t
  | _, _ => false

mutual
/-- Python `repr` of a JSON-derived value (quote escaping inside strings
omitted). -/
def pyRepr : Json → String
  | .null => "None"
  | .bool true => "True"
  | .bool false => "False"
  | .num n => toString n
  | .str s => "\x27" ++ s ++ "\x27"
  | .arr xs => "[" ++ pyReprElems xs ++ "]"
  | .obj kvs => "\x7b" ++ pyReprFields kvs ++ "\x7d"

def pyReprElems : List Json → String
  | [] => ""
  | [x] => pyRepr x
  | x :: xs => pyRepr x ++ ", " ++ pyReprElems xs

def pyReprFields : List (String × Json) → String
  | [] => ""
  | [(k, v)] => "\x27" ++ k ++ "\x27: " ++ pyRepr v
  | (k, v) :: kvs => "\x27" ++ k ++ "\x27: " ++ pyRepr v ++ ", " ++ pyReprFields kvs
end

/-- Python `str` of a JSON-derived value, as applied by f-strings and by the
template engine. -/
def pyStr : Json → String
  | .str s => s
  | j => pyRepr j

def listInfixOf (needle : List Char) : List Char → Bool
  | [] => needle.isEmpty
  | h :: t => needle.isPrefixOf (h :: t) || listInfixOf needle t

/-- Python `"sub" in s`. -/
def pyIn (needle hay : String) : Bool :=
  listInfixOf needle.toList hay.toList

/-- Python `s.lower()` (ASCII, which covers every value the script lowercases). -/
def pyLower (s : String) : String :=
  String.mk (s.toList.map Char.toLower)

/-- Python `s.replace("-", "_")` of template line 339: for a one-character
pattern and replacement, Python `replace` is exactly this character map. -/
def pyReplaceDashUnderscore (s : String) : String :=
  String.mk (s.toList.map (fun c => if c = '-' then '_' else c))

/-- One normalized finding, the dicts appended to
`report_data['security_issues']`.  Fields copied verbatim from scanner JSON
keep type `Json`; fields the script always builds itself are `String`. -/
structure Issue where
  type : String
  severity : Json
  message : Json
  file : Json
  line : Json
  rule_id : Json
  business_impact : String
  remediation : String

/-- `self.report_data` (constant header fields omitted, see module comment). -/
structure Report where
  total_files_scanned : Nat
  security_issues : List Issue
  compliance_status : String
  risk_level : String
  recommendations : List String

/-- The dictionary built in `SecurityReportGenerator.__init__`. -/
def initialReport : Report :=
  { total_files_scanned := 0
    security_issues := []
    compliance_status := "COMPLIANT"
    risk_level := "LOW"
    recommendations := [] }

/-- `_get_business_impact`: lookup on the last dot-separated segment of the
rule id, with the generic fallback. -/
def business_impact_map : String → String
  | "hardcoded-personal-data" =>
      "GDPR Article 5 violation - ICO fine risk up to £20M, reputational damage"
  | "detect-pii-in-logs" =>
      "Data exposure in logs - breach notification requirement, compliance violation"
  | "unencrypted-pii-storage" =>
      "Article 32 violation - data security inadequacy, audit failure risk"
  | "missing-consent-check" =>
      "Article 6 violation - unlawful processing, subject access request complications"
  | "missing-audit-log" =>
      "Article 30 violation - inability to demonstrate compliance during audit"
  | _ => "Potential compliance and security risk"

/-- `_get_remediation_advice`: same key scheme, its own table and fallback. -/
def remediation_map : String → String
  | "hardcoded-personal-data" =>
      "Remove hardcoded PII, use environment variables or secure configuration"
  | "detect-pii-in-logs" =>
      "Implement PII filtering in logging, use structured logging with field redaction"
  | "unencrypted-pii-storage" =>
      "Implement field-level encryption for sensitive data in database"
  | "missing-consent-check" =>
      "Add consent validation before data processing operations"
  | "missing-audit-log" =>
      "Implement comprehensive audit logging for all data operations"
  | _ => "Review security best practices and implement appropriate controls"

/-- Python `rule_id.split(".")[-1]`. -/
def lastDotSegment (s : String) : String :=
  ((s.splitOn ".").getLast?).getD s

/-- `_get_business_impact(rule_id)`: `rule_id.split` raises `AttributeError`
on a non-string. -/
def get_business_impact : Json → Except PyErr String
  | .str s => .ok (business_impact_map (lastDotSegment s))
  | _ => .error .attributeError

/-- `_get_remediation_advice(rule_id)`. -/
def get_remediation_advice : Json → Except PyErr String
  | .str s => .ok (remediation_map (lastDotSegment s))
  | _ => .error .attributeError

/-- The issue dict built for one Semgrep result (lines 34-43), key values
evaluated in source order. -/
def mkSemgrepIssue (r : Json) : Except PyErr Issue := do
  let extra ← getItem r "extra"
  let sev ← getItem extra "severity"
  let msg ← getItem extra "message"
  let path ← getItem r "path"
  let st ← getItem r "start"
  let line ← getItem st "line"
  let cid ← getItem r "check_id"
  let bi ← get_business_impact cid
  let rem ← get_remediation_advice cid
  pure { type := "GDPR Compliance Violation", severity := sev, message := msg,
         file := path, line := line, rule_id := cid,
         business_impact := bi, remediation := rem }

def mkSemgrepIssues : List Json → Except PyErr (List Issue)
  | [] => .ok []
  | r :: rs => do
    let i ← mkSemgrepIssue r
    let is ← mkSemgrepIssues rs
    .ok (i :: is)

/-- Line 31: `len(data.get('paths', {}).get('scanned', []))`. -/
def semgrepFilesCountE (d : Json) : Except PyErr Nat := do
  let paths ← dget d "paths" (Json.obj [])
  let scanned ← dget paths "scanned" (Json.arr [])
  pyLen scanned

/-- The list iterated by `for result in data.get('results', [])`. -/
def semgrepResultsE (d : Json) : Except PyErr (List Json) := do
  let rv ← dget d "results" (Json.arr [])
  pyIter rv

/-- Line 47: `len(data.get('results', []))`. -/
def semgrepLenE (d : Json) : Except PyErr Nat := do
  let rv ← dget d "results" (Json.arr [])
  pyLen rv

/-- Line 50 generator body, with `any`'s short-circuit. -/
def anyErrorSev : List Json → Except PyErr Bool
  | [] => .ok false
  | r :: rs => do
    let extra ← getItem r "extra"
    let sev ← getItem extra "severity"
    if sev.eqStr "ERROR" then .ok true else anyErrorSev rs

/-- Line 50: `any(r['extra']['severity'] == 'ERROR' for r in
data.get('results', []))`. -/
def semgrepAnyErrorE (d : Json) : Except PyErr Bool := do
  let rs ← semgrepResultsE d
  anyErrorSev rs

/-- Body of the `try` block of `load_semgrep_results` (lines 28-55).  An
`.error` is an exception escaping the block; partially mutated state is
irrelevant there because nothing in `main` catches it. -/
def semgrepBody (d : Json) (s : Report) : Except PyErr Report :=
  match semgrepFilesCountE d with
  | .error e => .error e
  | .ok nFiles =>
    match semgrepResultsE d with
    | .error e => .error e
    | .ok rs =>
      match mkSemgrepIssues rs with
      | .error e => .error e
      | .ok newIssues =>
        let s1 := { s with total_files_scanned := nFiles,
                           security_issues := s.security_issues ++ newIssues }
        match semgrepLenE d with
        | .error e => .error e
        | .ok n =>
          if n = 0 then
            .ok { s1 with risk_level := "LOW", compliance_status := "COMPLIANT" }
          else
            match semgrepAnyErrorE d with
            | .error e => .error e
            | .ok true =>
              .ok { s1 with risk_level := "HIGH", compliance_status := "NON-COMPLIANT" }
            | .ok false =>
              .ok { s1 with risk_level := "MEDIUM", compliance_status := "PARTIALLY COMPLIANT" }

/-- `load_semgrep_results`: catches only `FileNotFoundError` and
`json.JSONDecodeError` (lines 57-60); every exception raised by the body
propagates to the caller. -/
def load_semgrep_results (fi : FileInput) (s : Report) : Except PyErr Report :=
  match fi with
  | .missing => .ok s
  | .malformed => .ok s
  | .json d => semgrepBody d s

/-- The issue dict built for one GitLeaks finding (lines 69-78), key values
evaluated in source order. -/
def mkGitleaksIssue (f : Json) : Except PyErr Issue :=
  match dget f "Description" (Json.str "secret") with
  | .error e => .error e
  | .ok desc =>
    match dget f "File" (Json.str "Unknown") with
    | .error e => .error e
    | .ok file =>
      match dget f "StartLine" (Json.num 0) with
      | .error e => .error e
      | .ok line =>
        match dget f "RuleID" (Json.str "secret-detection") with
        | .error e => .error e
        | .ok rid =>
          .ok { type := "Secret/PII Exposure", severity := Json.str "HIGH",
                message := Json.str ("Potential " ++ pyStr desc ++ " detected"),
                file := file, line := line, rule_id := rid,
                business_impact := "Data breach risk, ICO fine exposure (up to £20M)",
                remediation := "Remove secret from code, rotate credentials, implement secrets management" }

/-- Loop of `load_gitleaks_results` (lines 68-81): per finding, append the
issue and force CRITICAL / NON-COMPLIANT.  The second component is an
exception escaping the loop, with the state mutated so far in the first. -/
def gitleaksLoop : List Json → Report → Report × Option PyErr
  | [], s => (s, none)
  | f :: fs, s =>
    match mkGitleaksIssue f with
    | .error e => (s, some e)
    | .ok i =>
      gitleaksLoop fs
        { s with security_issues := s.security_issues ++ [i],
                 risk_level := "CRITICAL",
                 compliance_status := "NON-COMPLIANT" }

/-- Body of the `try` block of `load_gitleaks_results` on a parsed value,
with the `except (json.JSONDecodeError, KeyError)` clause applied to the
loop's exception: `KeyError` would be logged (keeping the partially mutated
state), anything else propagates. -/
def gitleaksBody (d : Json) (s : Report) : Except PyErr Report :=
  match pyIter d with
  | .error e => if e = .keyError then .ok s else .error e
  | .ok fs =>
    match gitleaksLoop fs s with
    | (s', none) => .ok s'
    | (s', some e) => if e = .keyError then .ok s' else .error e

/-- `load_gitleaks_results`: catches `FileNotFoundError` and, from the body,
`json.JSONDecodeError` and `KeyError` (lines 83-86); anything else
propagates. -/
def load_gitleaks_results (fi : FileInput) (s : Report) : Except PyErr Report :=
  match fi with
  | .missing => .ok s
  | .malformed => .ok s
  | .json d => gitleaksBody d s

/-- The remediation f-string of line 106, with Python's evaluation order:
the conditional's test `match.get('vulnerability', {}).get('fix')` first,
then the selected branch. -/
def vulnRemediation (m : Json) : Except PyErr String :=
  match dget m "vulnerability" (Json.obj []) with
  | .error e => .error e
  | .ok vuln1 =>
    match dget vuln1 "fix" Json.null with
    | .error e => .error e
    | .ok fixCond =>
      if fixCond.truthy then
        match dget m "vulnerability" (Json.obj []) with
        | .error e => .error e
        | .ok vuln2 =>
          match dget vuln2 "fix" (Json.obj []) with
          | .error e => .error e
          | .ok fixv =>
            match dget fixv "versions" (Json.arr [Json.str "latest"]) with
            | .error e => .error e
            | .ok versions =>
              match pyIndex0 versions with
              | .error e => .error e
              | .ok v0 => .ok ("Update to version " ++ pyStr v0)
      else .ok ("Update to version latest")

/-- One iteration of the `for match in data.get('matches', [])` loop
(lines 95-108): only severities HIGH / CRITICAL produce an issue. -/
def vulnLoopStep (m : Json) (s : Report) : Except PyErr Report :=
  match dget m "vulnerability" (Json.obj []) with
  | .error e => .error e
  | .ok vuln =>
    match dget vuln "severity" (Json.str "UNKNOWN") with
    | .error e => .error e
    | .ok sev =>
      if sev.eqStr "HIGH" || sev.eqStr "CRITICAL" then
        match dget m "artifact" (Json.obj []) with
        | .error e => .error e
        | .ok artifact =>
          match dget artifact "name" (Json.str "Unknown") with
          | .error e => .error e
          | .ok nameJ =>
            match dget m "vulnerability" (Json.obj []) with
            | .error e => .error e
            | .ok vuln2 =>
              match dget vuln2 "id" (Json.str "vuln-scan") with
              | .error e => .error e
              | .ok rid =>
                match vulnRemediation m with
                | .error e => .error e
                | .ok rem =>
                  .ok { s with security_issues := s.security_issues ++
                    [{ type := "Dependency Vulnerability", severity := sev,
                       message := Json.str ("Vulnerable dependency: " ++ pyStr nameJ),
                       file := Json.str "package.json", line := Json.num 0,
                       rule_id := rid,
                       business_impact := "Supply chain security risk, potential data exposure",
                       remediation := rem }] }
      else .ok s

/-- The whole matches loop, exception escaping in the second component. -/
def vulnLoop : List Json → Report → Report × Option PyErr
  | [], s => (s, none)
  | m :: ms, s =>
    match vulnLoopStep m s with
    | .error e => (s, some e)
    | .ok s' => vulnLoop ms s'

/-- Body of the `try` block of `load_vulnerability_scan` on a parsed value,
with the `except (json.JSONDecodeError, KeyError)` clause applied to each
possible exception (a caught `KeyError` keeps the state mutated so far). -/
def vulnBody (d : Json) (s : Report) : Except PyErr Report :=
  match dget d "matches" (Json.arr []) with
  | .error e => if e = .keyError then .ok s else .error e
  | .ok mv =>
    match pyIter mv with
    | .error e => if e = .keyError then .ok s else .error e
    | .ok ms =>
      match vulnLoop ms s with
      | (s', none) => .ok s'
      | (s', some e) => if e = .keyError then .ok s' else .error e

/-- `load_vulnerability_scan`: catches `FileNotFoundError` and, from the body,
`json.JSONDecodeError` and `KeyError` (lines 110-113); anything else
propagates. -/
def load_vulnerability_scan (fi : FileInput) (s : Report) : Except PyErr Report :=
  match fi with
  | .missing => .ok s
  | .malformed => .ok s
  | .json d => vulnBody d s

/-- Line 146: `len([i for i in issues if i['severity'] in ['HIGH',
'CRITICAL']])`. -/
def highSeverityCount (issues : List Issue) : Nat :=
  (issues.filter (fun i => i.severity.eqStr "HIGH" || i.severity.eqStr "CRITICAL")).length

/-- `generate_recommendations` (lines 137-160). -/
def generate_recommendations (s : Report) : Report :=
  if s.security_issues.isEmpty then
    { s with recommendations :=
        ["Continue current security practices",
         "Consider implementing additional monitoring for runtime security",
         "Schedule quarterly security reviews to maintain compliance posture"] }
  else
    let hc := highSeverityCount s.security_issues
    let s1 :=
      if 0 < hc then
        { s with recommendations := s.recommendations ++
            ["IMMEDIATE ACTION: Address " ++ toString hc ++ " high/critical severity issues",
             "Implement mandatory security training for development team",
             "Review and strengthen code review processes"] }
      else s
    if s.security_issues.any (fun i => pyIn "GDPR" i.business_impact) then
      { s1 with recommendations := s1.recommendations ++
          ["Schedule legal review of data processing practices",
           "Conduct GDPR compliance training for technical teams",
           "Implement Data Protection Impact Assessment (DPIA) process"] }
    else s1

/-- The `class` attribute of the risk-level summary tile (template line 335):
`class="value risk-\x7b\x7b risk_level.lower() \x7d\x7d"`. -/
def riskTileClass (risk_level : String) : String :=
  "value risk-" ++ pyLower risk_level

/-- The `class` attribute of the compliance-status tile (template line 339):
`class="value \x7b\x7b compliance_status.lower().replace('-', '_') \x7d\x7d"`. -/
def complianceTileClass (compliance_status : String) : String :=
  "value " ++ pyReplaceDashUnderscore (pyLower compliance_status)

/-- The issue-count tile (template line 343) has the fixed attribute
`class="value"`. -/
def issuesTileClass : String := "value"

/-- The files-scanned tile (template line 347) has the fixed attribute
`class="value"`. -/
def filesScannedTileClass : String := "value"

/-- The class selectors defined in the template's stylesheet
(lines 179-321). -/
def stylesheetClasses : List String :=
  ["container", "header", "summary", "summary-card", "value",
   "risk-low", "risk-medium", "risk-high", "risk-critical",
   "compliant", "non-compliant", "partially-compliant",
   "content", "section", "issue", "warning", "info", "severity",
   "high", "critical", "medium", "low",
   "recommendations", "footer", "no-issues", "gdpr-badge"]

/-- The per-issue block of the findings loop (template lines 369-380),
rendered by `jinja2.Template` which defaults to `autoescape=False`: every
interpolation inserts `str(value)` with no HTML escaping.  Inter-tag
whitespace is condensed; the markup and interpolation structure are the
template's.  `issue.severity.lower()` raises on a non-string severity. -/
def renderIssueHtml (i : Issue) : Except PyErr String :=
  match i.severity with
  | .str sevs =>
    .ok ("<div class=\"issue\">\n<h4>\n" ++ pyStr i.message ++
         "\n<span class=\"severity " ++ pyLower sevs ++ "\">" ++ pyStr i.severity ++ "</span>\n" ++
         (if pyIn "GDPR" i.business_impact then "<span class=\"gdpr-badge\">GDPR</span>\n" else "") ++
         "</h4>\n<p><strong>File:</strong> " ++ pyStr i.file ++ " (Line " ++ pyStr i.line ++ ")</p>\n" ++
         "<p><strong>Business Impact:</strong> " ++ i.business_impact ++ "</p>\n" ++
         "<p><strong>Recommended Action:</strong> " ++ i.remediation ++ "</p>\n</div>")
  | _ => .error .attributeError

/-- The recommendations loop (template lines 389-391): one `<li>` per entry,
unescaped interpolation. -/
def renderRecommendationItems (recs : List String) : String :=
  String.join (recs.map (fun r => "\n                        <li>" ++ r ++ "</li>"))

/-- The three loader calls of `main` (lines 426-428), in source order, from a
fresh generator. -/
def runLoaders (f1 f2 f3 : FileInput) (s : Report) : Except PyErr Report :=
  match load_semgrep_results f1 s with
  | .error e => .error e
  | .ok s1 =>
    match load_gitleaks_results f2 s1 with
    | .error e => .error e
    | .ok s2 => load_vulnerability_scan f3 s2

/-- Loaders followed by `generate_recommendations` (lines 426-431). -/
def runPipeline (f1 f2 f3 : FileInput) : Except PyErr Report :=
  match runLoaders f1 f2 f3 initialReport with
  | .error e => .error e
  | .ok s => .ok (generate_recommendations s)

/-! ### Well-formedness predicates and value-level descriptions

Decidable descriptions of the inputs the spec calls "well-formed", and total
functions giving the values the loaders compute on them.  They are stated via
`jfind` so that a theorem's statement does not go through the exception
plumbing; bridging lemmas below connect them to the loader definitions. -/

def isOkB : Except PyErr α → Bool
  | .ok _ => true
  | .error _ => false

def isStrOpt : Option Json → Bool
  | some (Json.str _) => true
  | _ => false

/-- A Semgrep result the loader can process without raising: `extra.severity`,
`extra.message`, `path`, `start.line` present, `check_id` a string (the
`.split` in `_get_business_impact` needs a string). -/
def semgrepResultWF (r : Json) : Bool :=
  ((jfind r "extra").bind (fun e => jfind e "severity")).isSome
  && ((jfind r "extra").bind (fun e => jfind e "message")).isSome
  && (jfind r "path").isSome
  && ((jfind r "start").bind (fun st => jfind st "line")).isSome
  && isStrOpt (jfind r "check_id")

/-- A well-formed Semgrep input file: a JSON object whose `paths`/`scanned`
chain supports `len`, and whose `results` (when present) is a list of
well-formed results. -/
def semgrepInputWF (j : Json) : Bool :=
  j.isObj
  && isOkB (semgrepFilesCountE j)
  && (match jfind j "results" with
      | none => true
      | some (Json.arr rs) => rs.all semgrepResultWF
      | some _ => false)

/-- The results list of a well-formed Semgrep input. -/
def semgrepResultsOf (j : Json) : List Json :=
  match jfind j "results" with
  | some (Json.arr rs) => rs
  | _ => []

/-- Whether a result's `extra.severity` is the string ERROR. -/
def resultErrorSev (r : Json) : Bool :=
  match (jfind r "extra").bind (fun e => jfind e "severity") with
  | some v => v.eqStr "ERROR"
  | none => false

/-- The `fix` data of a match supports the remediation expression: if
`vulnerability.fix` is present and truthy, it is an object and its
`versions` (defaulting to `["latest"]`) is a non-empty list. -/
def vulnFixWF (vuln : Json) : Bool :=
  let x := (jfind vuln "fix").getD Json.null
  if x.truthy then
    match x with
    | Json.obj _ =>
      (match (jfind x "versions").getD (Json.arr [Json.str "latest"]) with
       | Json.arr (_ :: _) => true
       | _ => false)
    | _ => false
  else true

/-- A well-formed Grype match: an object whose `vulnerability` and `artifact`
are absent or objects, with processable `fix` data. -/
def vulnMatchWF (m : Json) : Bool :=
  match m with
  | Json.obj _ =>
    (match jfind m "vulnerability" with
     | none => true
     | some (Json.obj vkvs) =>
       (match jfind m "artifact" with
        | none => true
        | some (Json.obj _) => true
        | _ => false)
       && vulnFixWF (Json.obj vkvs)
     | some _ => false)
  | _ => false

/-- A well-formed vulnerability input file. -/
def vulnInputWF (j : Json) : Bool :=
  j.isObj
  && (match jfind j "matches" with
      | none => true
      | some (Json.arr ms) => ms.all vulnMatchWF
      | some _ => false)

/-- The matches list of a well-formed vulnerability input. -/
def vulnMatchesOf (j : Json) : List Json :=
  match jfind j "matches" with
  | some (Json.arr ms) => ms
  | _ => []

/-- Whether a match's `vulnerability.severity` (default UNKNOWN) is the
string HIGH or CRITICAL — the line 97 test. -/
def matchIsHighCrit (m : Json) : Bool :=
  let sev := (jfind ((jfind m "vulnerability").getD (Json.obj [])) "severity").getD (Json.str "UNKNOWN")
  sev.eqStr "HIGH" || sev.eqStr "CRITICAL"

/-- Value of the line 106 remediation f-string on a well-formed match (the
unreachable non-WF fallback arm returns "latest"). -/
def vulnRemediationOf (m : Json) : String :=
  let vuln := (jfind m "vulnerability").getD (Json.obj [])
  let fixCond := (jfind vuln "fix").getD Json.null
  if fixCond.truthy then
    let fixv := (jfind vuln "fix").getD (Json.obj [])
    match (jfind fixv "versions").getD (Json.arr [Json.str "latest"]) with
    | Json.arr (v :: _) => "Update to version " ++ pyStr v
    | _ => "Update to version latest"
  else "Update to version latest"

/-- The issue dict `load_vulnerability_scan` appends for a well-formed
HIGH/CRITICAL match (lines 98-107). -/
def vulnIssueOf (m : Json) : Issue :=
  let vuln := (jfind m "vulnerability").getD (Json.obj [])
  { type := "Dependency Vulnerability",
    severity := (jfind vuln "severity").getD (Json.str "UNKNOWN"),
    message := Json.str ("Vulnerable dependency: " ++
      pyStr ((jfind ((jfind m "artifact").getD (Json.obj [])) "name").getD (Json.str "Unknown"))),
    file := Json.str "package.json",
    line := Json.num 0,
    rule_id := (jfind vuln "id").getD (Json.str "vuln-scan"),
    business_impact := "Supply chain security risk, potential data exposure",
    remediation := vulnRemediationOf m }

/-! ### Concrete inputs used by witnesses and counterexamples -/

def reportOf (x : Except PyErr Report) : Report :=
  x.toOption.getD initialReport

/-- One GitLeaks finding (an empty object exercises every default). -/
def c1Findings : List Json := [Json.obj []]

def c1res : Report :=
  reportOf (runLoaders FileInput.missing (FileInput.json (Json.arr c1Findings)) FileInput.missing initialReport)

/-- A vulnerability file with a single CRITICAL match. -/
def vulnCritInput : Json :=
  Json.obj [("matches", Json.arr
    [Json.obj [("vulnerability", Json.obj
                  [("severity", Json.str "CRITICAL"), ("id", Json.str "CVE-2024-0001"),
                   ("fix", Json.obj [("versions", Json.arr [Json.str "1.2.3"])])]),
               ("artifact", Json.obj [("name", Json.str "libexample")])]])]

def c2res : Report :=
  reportOf (load_gitleaks_results (FileInput.json (Json.arr [Json.obj []])) initialReport)

/-- A Semgrep file with two scanned paths and one ERROR-severity result. -/
def c5Input : Json :=
  Json.obj [("paths", Json.obj [("scanned", Json.arr [Json.str "a.py", Json.str "b.py"])]),
            ("results", Json.arr
              [Json.obj [("extra", Json.obj [("severity", Json.str "ERROR"),
                                             ("message", Json.str "PII found")]),
                         ("path", Json.str "src/app.py"),
                         ("start", Json.obj [("line", Json.num 3)]),
                         ("check_id", Json.str "rules.gdpr.hardcoded-personal-data")]])]

def c5res : Report := reportOf (load_semgrep_results (FileInput.json c5Input) initialReport)

def c6res : Report := reportOf (load_vulnerability_scan (FileInput.json vulnCritInput) initialReport)

/-- A vulnerability file with one HIGH match (no fix data), one LOW match and
one match with no severity. -/
def c7Input : Json :=
  Json.obj [("matches", Json.arr
    [Json.obj [("vulnerability", Json.obj [("severity", Json.str "HIGH"), ("id", Json.str "CVE-2024-0002")]),
               ("artifact", Json.obj [("name", Json.str "liba")])],
     Json.obj [("vulnerability", Json.obj [("severity", Json.str "LOW"), ("id", Json.str "CVE-2024-0003")]),
               ("artifact", Json.obj [("name", Json.str "libb")])],
     Json.obj [("artifact", Json.obj [("name", Json.str "libc")])]])]

def c7res : Report := reportOf (load_vulnerability_scan (FileInput.json c7Input) initialReport)

/-- An issue whose `message` is adversarial scanner output. -/
def evilIssue : Issue :=
  { type := "Secret/PII Exposure", severity := Json.str "HIGH",
    message := Json.str "<script>alert(1)</script>",
    file := Json.str "a.py", line := Json.num 3, rule_id := Json.str "r",
    business_impact := "x", remediation := "y" }

/-- State after loaders: one HIGH issue whose business impact mentions GDPR. -/
def c9State : Report :=
  { initialReport with security_issues :=
      [{ type := "GDPR Compliance Violation", severity := Json.str "HIGH",
         message := Json.str "m", file := Json.str "f", line := Json.num 1,
         rule_id := Json.str "rules.hardcoded-personal-data",
         business_impact := business_impact_map "hardcoded-personal-data",
         remediation := remediation_map "hardcoded-personal-data" }] }

/-- State after loaders: one LOW issue with no GDPR mention. -/
def c10State : Report :=
  { initialReport with security_issues :=
      [{ type := "GDPR Compliance Violation", severity := Json.str "LOW",
         message := Json.str "m", file := Json.str "f", line := Json.num 1,
         rule_id := Json.str "other.rule",
         business_impact := business_impact_map "other-rule",
         remediation := remediation_map "other-rule" }] }

/-! ### Bridging lemmas -/

theorem okBind {α β : Type} (a : α) (f : α → Except PyErr β) :
    (Except.ok a >>= f) = f a := rfl

theorem errorBind {α β : Type} (e : PyErr) (f : α → Except PyErr β) :
    ((Except.error e : Except PyErr α) >>= f) = Except.error e := rfl

theorem isOkB_exists {α : Type} {x : Except PyErr α} (h : isOkB x = true) :
    ∃ a, x = .ok a := by
  cases x with
  | ok a => exact ⟨a, rfl⟩
  | error e => simp [isOkB] at h

theorem getItem_of_jfind {j v : Json} {k : String} (h : jfind j k = some v) :
    getItem j k = .ok v := by
  cases j with
  | obj kvs => simp [getItem, h]
  | null => simp [jfind] at h
  | bool b => simp [jfind] at h
  | num n => simp [jfind] at h
  | str s => simp [jfind] at h
  | arr xs => simp [jfind] at h

theorem dget_of_jfind {j v d : Json} {k : String} (h : jfind j k = some v) :
    dget j k d = .ok v := by
  cases j with
  | obj kvs => simp [dget, h]
  | null => simp [jfind] at h
  | bool b => simp [jfind] at h
  | num n => simp [jfind] at h
  | str s => simp [jfind] at h
  | arr xs => simp [jfind] at h

theorem dget_obj (kvs : List (String × Json)) (k : String) (d : Json) :
    dget (Json.obj kvs) k d = .ok ((jfind (Json.obj kvs) k).getD d) := rfl

theorem isStrOpt_exists {o : Option Json} (h : isStrOpt o = true) :
    ∃ s, o = some (Json.str s) := by
  match o with
  | some (Json.str s) => exact ⟨s, rfl⟩
  | none | some Json.null | some (Json.bool _) | some (Json.num _)
  | some (Json.arr _) | some (Json.obj _) => simp [isStrOpt] at h

/-! ### GitLeaks loader lemmas -/

/-- For a finding that is a dict, every `.get` succeeds and the built issue is
determined by defaulted lookups. -/
theorem mkGitleaksIssue_obj (kvs : List (String × Json)) :
    mkGitleaksIssue (Json.obj kvs) =
      .ok { type := "Secret/PII Exposure", severity := Json.str "HIGH",
            message := Json.str ("Potential " ++
              pyStr ((jfind (Json.obj kvs) "Description").getD (Json.str "secret")) ++ " detected"),
            file := (jfind (Json.obj kvs) "File").getD (Json.str "Unknown"),
            line := (jfind (Json.obj kvs) "StartLine").getD (Json.num 0),
            rule_id := (jfind (Json.obj kvs) "RuleID").getD (Json.str "secret-detection"),
            business_impact := "Data breach risk, ICO fine exposure (up to £20M)",
            remediation := "Remove secret from code, rotate credentials, implement secrets management" } := rfl

/-- The only exception the per-finding dict lookups can raise is
`AttributeError` (a non-dict finding). -/
theorem mkGitleaksIssue_error {f : Json} {e : PyErr} (h : mkGitleaksIssue f = .error e) :
    e = PyErr.attributeError := by
  cases f with
  | obj kvs => rw [mkGitleaksIssue_obj] at h; cases h
  | null | bool _ | num _ | str _ | arr _ =>
    simp [mkGitleaksIssue, dget] at h
    exact h.symm

/-- The GitLeaks loop never raises `KeyError`, so its `except` clause can never
return a partially processed state. -/
theorem gitleaksLoop_no_keyError (fs : List Json) (s : Report) :
    (gitleaksLoop fs s).2 ≠ some PyErr.keyError := by
  induction fs generalizing s with
  | nil => simp [gitleaksLoop]
  | cons f fs ih =>
    simp only [gitleaksLoop]
    cases hmk : mkGitleaksIssue f with
    | error e =>
      have he := mkGitleaksIssue_error hmk
      subst he
      simp
    | ok i => exact ih _

/-- A completed GitLeaks loop either processed no finding or left the forced
CRITICAL / NON-COMPLIANT state. -/
theorem gitleaksLoop_sets (fs : List Json) (s s' : Report)
    (h : gitleaksLoop fs s = (s', none)) :
    s' = s ∨ (s'.risk_level = "CRITICAL" ∧ s'.compliance_status = "NON-COMPLIANT") := by
  induction fs generalizing s with
  | nil =>
    simp only [gitleaksLoop, Prod.mk.injEq] at h
    exact Or.inl h.1.symm
  | cons f fs ih =>
    simp only [gitleaksLoop] at h
    cases hmk : mkGitleaksIssue f with
    | error e => rw [hmk] at h; simp at h
    | ok i =>
      rw [hmk] at h
      rcases ih _ h with heq | hp
      · subst heq; exact Or.inr ⟨rfl, rfl⟩
      · exact Or.inr hp

/-- A successful `load_gitleaks_results` call on a non-empty findings list
leaves risk CRITICAL and compliance NON-COMPLIANT, whatever the prior state. -/
theorem gitleaks_forces (fs : List Json) (s s' : Report) (hne : fs.isEmpty = false)
    (h : load_gitleaks_results (FileInput.json (Json.arr fs)) s = .ok s') :
    s'.risk_level = "CRITICAL" ∧ s'.compliance_status = "NON-COMPLIANT" := by
  simp only [load_gitleaks_results, gitleaksBody, pyIter] at h
  cases hl : gitleaksLoop fs s with
  | mk t oe =>
    rw [hl] at h
    cases oe with
    | none =>
      simp only [Except.ok.injEq] at h
      subst h
      cases fs with
      | nil => simp at hne
      | cons f fs =>
        simp only [gitleaksLoop] at hl
        cases hmk : mkGitleaksIssue f with
        | error e => rw [hmk] at hl; simp at hl
        | ok i =>
          rw [hmk] at hl
          rcases gitleaksLoop_sets _ _ _ hl with heq | hp
          · subst heq; exact ⟨rfl, rfl⟩
          · exact hp
    | some e =>
      by_cases hk : e = PyErr.keyError
      · subst hk
        exact absurd (by rw [hl]) (gitleaksLoop_no_keyError fs s)
      · simp [hk] at h

/-! ### Vulnerability loader frame lemmas -/

/-- One loop iteration never writes `risk_level` or `compliance_status`. -/
theorem vulnLoopStep_preserves {m : Json} {s s' : Report}
    (h : vulnLoopStep m s = .ok s') :
    s'.risk_level = s.risk_level ∧ s'.compliance_status = s.compliance_status := by
  unfold vulnLoopStep at h
  repeat' split at h
  all_goals cases h
  all_goals exact ⟨rfl, rfl⟩

/-- Nor does the whole loop, whether it completes or not. -/
theorem vulnLoop_preserves (ms : List Json) (s : Report) :
    (vulnLoop ms s).1.risk_level = s.risk_level ∧
    (vulnLoop ms s).1.compliance_status = s.compliance_status := by
  induction ms generalizing s with
  | nil => exact ⟨rfl, rfl⟩
  | cons m ms ih =>
    simp only [vulnLoop]
    cases hst : vulnLoopStep m s with
    | error e => exact ⟨rfl, rfl⟩
    | ok s1 =>
      have hp := vulnLoopStep_preserves hst
      have hi := ih s1
      exact ⟨hi.1.trans hp.1, hi.2.trans hp.2⟩

/-- `load_vulnerability_scan` never changes `risk_level` or
`compliance_status` on any path that returns. -/
theorem vuln_preserves (fi : FileInput) (s s' : Report)
    (h : load_vulnerability_scan fi s = .ok s') :
    s'.risk_level = s.risk_level ∧ s'.compliance_status = s.compliance_status := by
  cases fi with
  | missing => cases h; exact ⟨rfl, rfl⟩
  | malformed => cases h; exact ⟨rfl, rfl⟩
  | json d =>
    have hb : vulnBody d s = .ok s' := h
    unfold vulnBody at hb
    split at hb
    · -- data.get('matches', []) raised
      split at hb
      · cases hb; exact ⟨rfl, rfl⟩
      · cases hb
    · -- iterate the matches value
      split at hb
      · -- iteration raised
        split at hb
        · cases hb; exact ⟨rfl, rfl⟩
        · cases hb
      · -- the loop ran
        rename_i ms hiter
        split at hb
        · -- loop completed
          rename_i t heq
          cases hb
          have hp := vulnLoop_preserves ms s
          rw [heq] at hp
          exact hp
        · -- loop raised; only KeyError is caught
          rename_i t e heq
          split at hb
          · cases hb
            have hp := vulnLoop_preserves ms s
            rw [heq] at hp
            exact hp
          · cases hb

/-! ### Claim theorems -/

/-- Claim C1: for every run of the pipeline (semgrep loader, then gitleaks
loader, then vulnerability loader), if the secret-detection input file parses
as a non-empty list of findings, then after all loaders have run the final
state has risk_level CRITICAL and compliance_status NON-COMPLIANT, regardless
of what the static-analysis loader set. -/
theorem c1_secret_detection_forces_critical
    (f1 f3 : FileInput) (fs : List Json) (hne : fs.isEmpty = false) (r : Report)
    (hrun : runLoaders f1 (FileInput.json (Json.arr fs)) f3 initialReport = .ok r) :
    r.risk_level = "CRITICAL" ∧ r.compliance_status = "NON-COMPLIANT" := by
  unfold runLoaders at hrun
  split at hrun
  · cases hrun
  · split at hrun
    · cases hrun
    · have hforced := gitleaks_forces _ _ _ hne (by assumption)
      have hframe := vuln_preserves _ _ _ hrun
      exact ⟨hframe.1.trans hforced.1, hframe.2.trans hforced.2⟩

theorem c1_witness :
    c1res.risk_level = "CRITICAL" ∧ c1res.compliance_status = "NON-COMPLIANT" :=
  c1_secret_detection_forces_critical FileInput.missing FileInput.missing
    c1Findings (by decide) c1res rfl

/-- Claim C2 counterexample: running the pipeline with only a vulnerability
file holding one CRITICAL match reaches a state whose `security_issues`
contains a CRITICAL-severity issue while `risk_level` is LOW (not at least
CRITICAL) and `compliance_status` is COMPLIANT (not degraded), refuting the
worst-finding invariant as stated. -/
theorem c2_counterexample :
    (runLoaders FileInput.missing FileInput.missing (FileInput.json vulnCritInput) initialReport).map
      (fun r => (r.security_issues.any (fun i => i.severity.eqStr "CRITICAL"),
                 r.risk_level, r.compliance_status))
      = Except.ok (true, "LOW", "COMPLIANT") ∧ ("LOW" : String) ≠ "CRITICAL" :=
  ⟨rfl, by decide⟩

/-- Claim C2 (amended): the worst-finding invariant holds only for the
secret-detection loader: after it processes a non-empty findings list the
state is CRITICAL / NON-COMPLIANT regardless of prior state, while the
vulnerability loader never changes `risk_level` or `compliance_status` even
when it appends HIGH/CRITICAL issues. -/
theorem c2_amended_secret_only_invariant
    (fs : List Json) (hne : fs.isEmpty = false) (s s' : Report)
    (h : load_gitleaks_results (FileInput.json (Json.arr fs)) s = .ok s') :
    (s'.risk_level = "CRITICAL" ∧ s'.compliance_status = "NON-COMPLIANT") ∧
    (∀ fi t t', load_vulnerability_scan fi t = .ok t' →
       t'.risk_level = t.risk_level ∧ t'.compliance_status = t.compliance_status) :=
  ⟨gitleaks_forces fs s s' hne h, fun fi t t' ht => vuln_preserves fi t t' ht⟩

theorem c2_amended_witness :
    c2res.risk_level = "CRITICAL" ∧ c2res.compliance_status = "NON-COMPLIANT" :=
  (c2_amended_secret_only_invariant [Json.obj []] (by decide) initialReport c2res rfl).1

/-- Claim C3 (code bug evidence): on the well-formed JSON input
`{"results": [{}]}` the semgrep loader raises `KeyError` (`result['extra']`),
which its `except` clauses — `FileNotFoundError` and `json.JSONDecodeError`
only — do not catch, so the exception reaches `main`, no HTML is written and
the exit code is non-zero. -/
theorem c3_semgrep_keyerror_escapes :
    load_semgrep_results (FileInput.json (Json.obj [("results", Json.arr [Json.obj []])]))
      initialReport = Except.error PyErr.keyError := rfl

/-- Claim C4 (code bug evidence): the findings block is rendered by
`jinja2.Template` with its default `autoescape=False`, so an issue message
containing markup appears verbatim in the report and no entity escaping
takes place. -/
theorem c4_message_rendered_unescaped :
    (renderIssueHtml evilIssue).map
      (fun html => (pyIn "<script>alert(1)</script>" html, pyIn "&lt;" html))
      = Except.ok (true, false) := rfl

/-- Claim C6: for every input file and every starting state, the vulnerability
loader leaves `risk_level` and `compliance_status` exactly unchanged, even
when it appends issues of severity HIGH or CRITICAL. -/
theorem c6_vuln_loader_frame (fi : FileInput) (s s' : Report)
    (h : load_vulnerability_scan fi s = .ok s') :
    s'.risk_level = s.risk_level ∧ s'.compliance_status = s.compliance_status :=
  vuln_preserves fi s s' h

theorem c6_witness :
    c6res.risk_level = initialReport.risk_level ∧
    c6res.compliance_status = initialReport.compliance_status :=
  c6_vuln_loader_frame (FileInput.json vulnCritInput) initialReport c6res rfl

/-- Claim C8 counterexample: the compliance tile's class comes from
`.lower().replace('-', '_')`, so NON-COMPLIANT yields `non_compliant`
(underscore) — not the claimed `non-compliant` — and no such class exists in
the stylesheet. -/
theorem c8_counterexample :
    complianceTileClass "NON-COMPLIANT" = "value non_compliant" ∧
    complianceTileClass "NON-COMPLIANT" ≠ "value non-compliant" ∧
    stylesheetClasses.contains "non_compliant" = false := by
  decide

/-- Claim C8 (amended): only the risk tile's class (`risk-` plus the lowercased
value) matches the stylesheet.  The compliance tile's class replaces dashes
with underscores, so NON-COMPLIANT gives `non_compliant` and PARTIALLY
COMPLIANT gives `partially compliant`, neither of which is a stylesheet class
(the latter's second token does match `.compliant`); the issue-count and
files-scanned tiles carry only the fixed class `value`. -/
theorem c8_amended_tile_classes :
    riskTileClass "LOW" = "value risk-low" ∧ stylesheetClasses.contains "risk-low" = true ∧
    riskTileClass "MEDIUM" = "value risk-medium" ∧ stylesheetClasses.contains "risk-medium" = true ∧
    riskTileClass "HIGH" = "value risk-high" ∧ stylesheetClasses.contains "risk-high" = true ∧
    riskTileClass "CRITICAL" = "value risk-critical" ∧ stylesheetClasses.contains "risk-critical" = true ∧
    complianceTileClass "COMPLIANT" = "value compliant" ∧ stylesheetClasses.contains "compliant" = true ∧
    complianceTileClass "NON-COMPLIANT" = "value non_compliant" ∧
    stylesheetClasses.contains "non_compliant" = false ∧
    complianceTileClass "PARTIALLY COMPLIANT" = "value partially compliant" ∧
    stylesheetClasses.contains "partially compliant" = false ∧
    issuesTileClass = "value" ∧ filesScannedTileClass = "value" := by
  decide

theorem filter_length_zero_of_any_false {α : Type} (p : α → Bool) (l : List α)
    (h : l.any p = false) : (l.filter p).length = 0 := by
  induction l with
  | nil => rfl
  | cons a l ih =>
    cases hpa : p a with
    | true => rw [List.any_cons, hpa] at h; simp at h
    | false =>
      rw [List.any_cons, hpa] at h
      simp only [Bool.false_or] at h
      simp [List.filter, hpa, ih h]

/-- Claim C9: when both triggers hold, the recommender appends the
high-severity block first, then the GDPR block, with the first entry naming
the count of HIGH/CRITICAL issues. -/
theorem c9_both_blocks_in_order (s : Report)
    (hrec : s.recommendations = [])
    (hhigh : 0 < highSeverityCount s.security_issues)
    (hgdpr : s.security_issues.any (fun i => pyIn "GDPR" i.business_impact) = true) :
    (generate_recommendations s).recommendations =
      ["IMMEDIATE ACTION: Address " ++ toString (highSeverityCount s.security_issues) ++
         " high/critical severity issues",
       "Implement mandatory security training for development team",
       "Review and strengthen code review processes",
       "Schedule legal review of data processing practices",
       "Conduct GDPR compliance training for technical teams",
       "Implement Data Protection Impact Assessment (DPIA) process"] := by
  have hne : s.security_issues.isEmpty = false := by
    cases hl : s.security_issues with
    | nil => rw [hl] at hhigh; simp [highSeverityCount] at hhigh
    | cons a l => simp [hl]
  unfold generate_recommendations
  rw [hne]
  simp only [Bool.false_eq_true, if_false, hgdpr, if_true, hrec]
  rw [if_pos hhigh]
  simp

theorem c9_witness :
    (generate_recommendations c9State).recommendations =
      ["IMMEDIATE ACTION: Address " ++ toString (highSeverityCount c9State.security_issues) ++
         " high/critical severity issues",
       "Implement mandatory security training for development team",
       "Review and strengthen code review processes",
       "Schedule legal review of data processing practices",
       "Conduct GDPR compliance training for technical teams",
       "Implement Data Protection Impact Assessment (DPIA) process"] :=
  c9_both_blocks_in_order c9State rfl (by decide) (by decide)

/-- Claim C10: on a non-empty issue list with no HIGH/CRITICAL severity and no
GDPR-mentioning business impact, the recommender leaves the (initially empty)
recommendations list empty — the "all good" defaults are reserved for a run
with zero issues — so the rendered recommendations section has no items. -/
theorem c10_no_trigger_no_recommendations (s : Report)
    (hne : s.security_issues.isEmpty = false)
    (hrec : s.recommendations = [])
    (hhigh : s.security_issues.any
       (fun i => i.severity.eqStr "HIGH" || i.severity.eqStr "CRITICAL") = false)
    (hgdpr : s.security_issues.any (fun i => pyIn "GDPR" i.business_impact) = false) :
    (generate_recommendations s).recommendations = [] ∧
    renderRecommendationItems (generate_recommendations s).recommendations = "" := by
  have hc0 : highSeverityCount s.security_issues = 0 :=
    filter_length_zero_of_any_false _ _ hhigh
  have hmain : (generate_recommendations s).recommendations = [] := by
    unfold generate_recommendations
    rw [hne]
    simp only [Bool.false_eq_true, if_false, hgdpr, hc0]
    simp [hrec]
  exact ⟨hmain, by rw [hmain]; rfl⟩

theorem c10_witness :
    (generate_recommendations c10State).recommendations = [] ∧
    renderRecommendationItems (generate_recommendations c10State).recommendations = "" :=
  c10_no_trigger_no_recommendations c10State (by decide) rfl (by decide) (by decide)

/-! ### Semgrep loader lemmas (claim C5) -/

theorem semgrepResultWF_parts {r : Json} (h : semgrepResultWF r = true) :
    ∃ extra sev msg p st ln cs,
      jfind r "extra" = some extra ∧ jfind extra "severity" = some sev ∧
      jfind extra "message" = some msg ∧ jfind r "path" = some p ∧
      jfind r "start" = some st ∧ jfind st "line" = some ln ∧
      jfind r "check_id" = some (Json.str cs) := by
  simp only [semgrepResultWF, Bool.and_eq_true] at h
  obtain ⟨⟨⟨⟨h1, h2⟩, h3⟩, h4⟩, h5⟩ := h
  obtain ⟨cs, hcs⟩ := isStrOpt_exists h5
  obtain ⟨p, hp⟩ := Option.isSome_iff_exists.mp h3
  cases hex : jfind r "extra" with
  | none => rw [hex] at h1; simp at h1
  | some extra =>
    rw [hex] at h1 h2
    simp only [Option.some_bind] at h1 h2
    obtain ⟨sev, hsev⟩ := Option.isSome_iff_exists.mp h1
    obtain ⟨msg, hmsg⟩ := Option.isSome_iff_exists.mp h2
    cases hst : jfind r "start" with
    | none => rw [hst] at h4; simp at h4
    | some st =>
      rw [hst] at h4
      simp only [Option.some_bind] at h4
      obtain ⟨ln, hln⟩ := Option.isSome_iff_exists.mp h4
      exact ⟨extra, sev, msg, p, st, ln, cs, rfl, hsev, hmsg, hp, rfl, hln, hcs⟩

theorem mkSemgrepIssue_ok {r : Json} (h : semgrepResultWF r = true) :
    ∃ i, mkSemgrepIssue r = .ok i := by
  obtain ⟨extra, sev, msg, p, st, ln, cs, hex, hsev, hmsg, hp, hst, hln, hcs⟩ :=
    semgrepResultWF_parts h
  have hmk : mkSemgrepIssue r = .ok
      { type := "GDPR Compliance Violation", severity := sev, message := msg,
        file := p, line := ln, rule_id := Json.str cs,
        business_impact := business_impact_map (lastDotSegment cs),
        remediation := remediation_map (lastDotSegment cs) } := by
    simp only [mkSemgrepIssue, getItem_of_jfind hex, getItem_of_jfind hsev,
      getItem_of_jfind hmsg, getItem_of_jfind hp, getItem_of_jfind hst,
      getItem_of_jfind hln, getItem_of_jfind hcs, okBind]
    rfl
  exact ⟨_, hmk⟩

theorem mkSemgrepIssues_ok (rs : List Json) (h : ∀ r ∈ rs, semgrepResultWF r = true) :
    ∃ l, mkSemgrepIssues rs = .ok l := by
  induction rs with
  | nil => exact ⟨[], rfl⟩
  | cons r rs ih =>
    obtain ⟨i, hi⟩ := mkSemgrepIssue_ok (h r (by simp))
    obtain ⟨l, hl⟩ := ih (fun x hx => h x (by simp [hx]))
    refine ⟨i :: l, ?_⟩
    unfold mkSemgrepIssues
    simp only [hi, hl, okBind]

theorem anyErrorSev_eq (rs : List Json) (h : ∀ r ∈ rs, semgrepResultWF r = true) :
    anyErrorSev rs = .ok (rs.any resultErrorSev) := by
  induction rs with
  | nil => rfl
  | cons r rs ih =>
    obtain ⟨extra, sev, _, _, _, _, _, hex, hsev, _, _, _, _, _⟩ :=
      semgrepResultWF_parts (h r (by simp))
    have hres : resultErrorSev r = sev.eqStr "ERROR" := by
      simp [resultErrorSev, hex, hsev]
    unfold anyErrorSev
    simp only [getItem_of_jfind hex, getItem_of_jfind hsev, okBind, List.any_cons, hres]
    cases hE : sev.eqStr "ERROR" with
    | true => simp [hE]
    | false => simp [hE, ih (fun x hx => h x (by simp [hx]))]

/-- Claim C5: for every well-formed static-analysis input, after the semgrep
loader runs: empty results give LOW / COMPLIANT; any ERROR-severity result
gives HIGH / NON-COMPLIANT; otherwise MEDIUM / PARTIALLY COMPLIANT. -/
theorem c5_semgrep_classification (j : Json) (s s' : Report)
    (hwf : semgrepInputWF j = true)
    (h : load_semgrep_results (FileInput.json j) s = .ok s') :
    ((semgrepResultsOf j).isEmpty = true →
       s'.risk_level = "LOW" ∧ s'.compliance_status = "COMPLIANT") ∧
    ((semgrepResultsOf j).isEmpty = false →
       (semgrepResultsOf j).any resultErrorSev = true →
       s'.risk_level = "HIGH" ∧ s'.compliance_status = "NON-COMPLIANT") ∧
    ((semgrepResultsOf j).isEmpty = false →
       (semgrepResultsOf j).any resultErrorSev = false →
       s'.risk_level = "MEDIUM" ∧ s'.compliance_status = "PARTIALLY COMPLIANT") := by
  simp only [semgrepInputWF, Bool.and_eq_true] at hwf
  obtain ⟨⟨hobj, hfc⟩, hres⟩ := hwf
  obtain ⟨nf, hnf⟩ := isOkB_exists hfc
  cases j with
  | null => simp [Json.isObj] at hobj
  | bool b => simp [Json.isObj] at hobj
  | num n => simp [Json.isObj] at hobj
  | str t => simp [Json.isObj] at hobj
  | arr xs => simp [Json.isObj] at hobj
  | obj kvs =>
    cases hr : jfind (Json.obj kvs) "results" with
    | none =>
      have hRE : semgrepResultsE (Json.obj kvs) = .ok [] := by
        unfold semgrepResultsE; rw [dget_obj, hr]; rfl
      have hLE : semgrepLenE (Json.obj kvs) = .ok 0 := by
        unfold semgrepLenE; rw [dget_obj, hr]; rfl
      have hOf : semgrepResultsOf (Json.obj kvs) = [] := by
        unfold semgrepResultsOf; rw [hr]
      obtain ⟨li, hli⟩ := mkSemgrepIssues_ok [] (by simp)
      have hB : semgrepBody (Json.obj kvs) s = .ok s' := h
      unfold semgrepBody at hB
      simp only [hnf, hRE, hli, hLE] at hB
      rw [hOf]
      cases hB
      refine ⟨fun _ => ⟨rfl, rfl⟩, fun hF _ => ?_, fun hF _ => ?_⟩ <;> cases hF
    | some v =>
      rw [hr] at hres
      cases v with
      | null => exact Bool.noConfusion hres
      | bool b => exact Bool.noConfusion hres
      | num n => exact Bool.noConfusion hres
      | str t => exact Bool.noConfusion hres
      | obj okvs => exact Bool.noConfusion hres
      | arr rs =>
        have hall : rs.all semgrepResultWF = true := hres
        have hAll : ∀ r ∈ rs, semgrepResultWF r = true := by
          simpa only [List.all_eq_true] using hall
        have hRE : semgrepResultsE (Json.obj kvs) = .ok rs := by
          unfold semgrepResultsE; rw [dget_obj, hr]; rfl
        have hLE : semgrepLenE (Json.obj kvs) = .ok rs.length := by
          unfold semgrepLenE; rw [dget_obj, hr]; rfl
        have hAE : semgrepAnyErrorE (Json.obj kvs) = .ok (rs.any resultErrorSev) := by
          unfold semgrepAnyErrorE
          rw [hRE, okBind]
          exact anyErrorSev_eq rs hAll
        have hOf : semgrepResultsOf (Json.obj kvs) = rs := by
          unfold semgrepResultsOf; rw [hr]
        obtain ⟨li, hli⟩ := mkSemgrepIssues_ok rs hAll
        have hB : semgrepBody (Json.obj kvs) s = .ok s' := h
        unfold semgrepBody at hB
        rw [hOf]
        cases rs with
        | nil =>
          simp only [hnf, hRE, hli, hLE] at hB
          cases hB
          refine ⟨fun _ => ⟨rfl, rfl⟩, fun hF _ => ?_, fun hF _ => ?_⟩ <;> cases hF
        | cons r0 rs' =>
          cases hb : (r0 :: rs').any resultErrorSev with
          | true =>
            rw [hb] at hAE
            simp only [hnf, hRE, hli, hLE, hAE] at hB
            cases hB
            refine ⟨fun hT => ?_, fun _ _ => ⟨rfl, rfl⟩, fun _ hF => ?_⟩
            · cases hT
            · cases hF
          | false =>
            rw [hb] at hAE
            simp only [hnf, hRE, hli, hLE, hAE] at hB
            cases hB
            refine ⟨fun hT => ?_, fun _ hT => ?_, fun _ _ => ⟨rfl, rfl⟩⟩
            · cases hT
            · cases hT

theorem c5_witness :
    c5res.risk_level = "HIGH" ∧ c5res.compliance_status = "NON-COMPLIANT" :=
  (c5_semgrep_classification c5Input initialReport c5res (by decide) rfl).2.1
    (by decide) (by decide)


/-! ### Vulnerability loader value lemmas (claim C7) -/

theorem vulnRemediation_wf (kvs vkvs : List (String × Json))
    (hv : jfind (Json.obj kvs) "vulnerability" = some (Json.obj vkvs))
    (hfix : vulnFixWF (Json.obj vkvs) = true) :
    vulnRemediation (Json.obj kvs) = .ok (vulnRemediationOf (Json.obj kvs)) := by
  simp only [vulnFixWF] at hfix
  unfold vulnRemediation vulnRemediationOf
  cases hf : jfind (Json.obj vkvs) "fix" with
  | none =>
    simp [dget_obj, hv, hf, Json.truthy]
  | some fx =>
    rw [hf] at hfix
    simp only [Option.getD_some] at hfix
    cases hT : fx.truthy with
    | false =>
      rw [hT] at hfix
      simp [dget_obj, hv, hf, hT]
    | true =>
      rw [hT] at hfix
      simp only [if_true] at hfix
      cases fx with
      | null => exact Bool.noConfusion hfix
      | bool b => exact Bool.noConfusion hfix
      | num n => exact Bool.noConfusion hfix
      | str t => exact Bool.noConfusion hfix
      | arr xs => exact Bool.noConfusion hfix
      | obj fkvs =>
        cases hver : (jfind (Json.obj fkvs) "versions").getD (Json.arr [Json.str "latest"]) with
        | arr vs =>
          cases vs with
          | nil => rw [hver] at hfix; exact Bool.noConfusion hfix
          | cons v vs' =>
            simp [dget_obj, hv, hf, hT, hver, pyIndex0]
        | null => rw [hver] at hfix; exact Bool.noConfusion hfix
        | bool b => rw [hver] at hfix; exact Bool.noConfusion hfix
        | num n => rw [hver] at hfix; exact Bool.noConfusion hfix
        | str t => rw [hver] at hfix; exact Bool.noConfusion hfix
        | obj okvs => rw [hver] at hfix; exact Bool.noConfusion hfix

theorem vulnLoopStep_wf (m : Json) (s : Report) (hwf : vulnMatchWF m = true) :
    vulnLoopStep m s =
      .ok (if matchIsHighCrit m
           then { s with security_issues := s.security_issues ++ [vulnIssueOf m] }
           else s) := by
  cases m with
  | null => exact Bool.noConfusion hwf
  | bool b => exact Bool.noConfusion hwf
  | num n => exact Bool.noConfusion hwf
  | str t => exact Bool.noConfusion hwf
  | arr xs => exact Bool.noConfusion hwf
  | obj kvs =>
    unfold vulnMatchWF at hwf
    cases hv : jfind (Json.obj kvs) "vulnerability" with
    | none =>
      have hmc : matchIsHighCrit (Json.obj kvs) = false := by
        unfold matchIsHighCrit
        rw [hv]
        simp [jfind, Json.eqStr]
      simp only [vulnLoopStep, dget_obj, hv, Option.getD_none]
      simp [jfind, Json.eqStr, hmc]
    | some v =>
      rw [hv] at hwf
      cases v with
      | null => exact Bool.noConfusion hwf
      | bool b => exact Bool.noConfusion hwf
      | num n => exact Bool.noConfusion hwf
      | str t => exact Bool.noConfusion hwf
      | arr xs => exact Bool.noConfusion hwf
      | obj vkvs =>
        simp only [] at hwf
        rw [Bool.and_eq_true] at hwf
        obtain ⟨hart, hfix⟩ := hwf
        have hmc : matchIsHighCrit (Json.obj kvs) =
            (((jfind (Json.obj vkvs) "severity").getD (Json.str "UNKNOWN")).eqStr "HIGH"
             || ((jfind (Json.obj vkvs) "severity").getD (Json.str "UNKNOWN")).eqStr "CRITICAL") := by
          simp [matchIsHighCrit, hv]
        obtain ⟨akvs, hA⟩ : ∃ akvs,
            (jfind (Json.obj kvs) "artifact").getD (Json.obj []) = Json.obj akvs := by
          cases ha : jfind (Json.obj kvs) "artifact" with
          | none => exact ⟨[], rfl⟩
          | some a =>
            rw [ha] at hart
            cases a with
            | obj akvs => exact ⟨akvs, rfl⟩
            | null => exact Bool.noConfusion hart
            | bool b => exact Bool.noConfusion hart
            | num n => exact Bool.noConfusion hart
            | str t => exact Bool.noConfusion hart
            | arr xs => exact Bool.noConfusion hart
        cases hc : ((jfind (Json.obj vkvs) "severity").getD (Json.str "UNKNOWN")).eqStr "HIGH"
                   || ((jfind (Json.obj vkvs) "severity").getD (Json.str "UNKNOWN")).eqStr "CRITICAL" with
        | false =>
          simp [vulnLoopStep, dget_obj, hv, hc, hmc]
        | true =>
          simp [vulnLoopStep, vulnIssueOf, dget_obj, hv, hc, hmc, hA,
                vulnRemediation_wf kvs vkvs hv hfix]

theorem vulnLoop_wf (ms : List Json) (s : Report)
    (h : ∀ m ∈ ms, vulnMatchWF m = true) :
    vulnLoop ms s =
      ({ s with security_issues :=
           s.security_issues ++ (ms.filter matchIsHighCrit).map vulnIssueOf }, none) := by
  induction ms generalizing s with
  | nil => simp [vulnLoop]
  | cons m ms ih =>
    have hm := h m (by simp)
    unfold vulnLoop
    rw [vulnLoopStep_wf m s hm]
    cases hc : matchIsHighCrit m with
    | true =>
      simp only [hc, if_true]
      rw [ih _ (fun x hx => h x (by simp [hx]))]
      simp [List.filter, hc, List.append_assoc]
    | false =>
      simp only [hc, Bool.false_eq_true, if_false]
      rw [ih _ (fun x hx => h x (by simp [hx]))]
      simp [List.filter, hc]

theorem filter_eq_nil_of_all_not {α : Type} (p : α → Bool) (l : List α)
    (h : l.all (fun a => !(p a)) = true) : l.filter p = [] := by
  induction l with
  | nil => rfl
  | cons a l ih =>
    rw [List.all_cons, Bool.and_eq_true] at h
    obtain ⟨ha, hl⟩ := h
    have hpa : p a = false := by
      cases hpv : p a with
      | false => rfl
      | true => rw [hpv] at ha; cases ha
    simp [List.filter, hpa, ih hl]

/-- Claim C7: for every well-formed vulnerability input, the loader appends
one "Dependency Vulnerability" issue for exactly the matches whose severity is
HIGH or CRITICAL; other severities (including a missing one) add nothing, so
an input whose matches are all LOW or MEDIUM leaves `security_issues`
unchanged. -/
theorem c7_vuln_loader_appends (j : Json) (s s' : Report)
    (hwf : vulnInputWF j = true)
    (h : load_vulnerability_scan (FileInput.json j) s = .ok s') :
    s'.security_issues =
      s.security_issues ++ ((vulnMatchesOf j).filter matchIsHighCrit).map vulnIssueOf ∧
    (∀ i ∈ ((vulnMatchesOf j).filter matchIsHighCrit).map vulnIssueOf,
       i.type = "Dependency Vulnerability") ∧
    ((vulnMatchesOf j).all (fun m => !(matchIsHighCrit m)) = true →
       s'.security_issues = s.security_issues) := by
  simp only [vulnInputWF, Bool.and_eq_true] at hwf
  obtain ⟨hobj, hm⟩ := hwf
  cases j with
  | null => simp [Json.isObj] at hobj
  | bool b => simp [Json.isObj] at hobj
  | num n => simp [Json.isObj] at hobj
  | str t => simp [Json.isObj] at hobj
  | arr xs => simp [Json.isObj] at hobj
  | obj kvs =>
    cases hr : jfind (Json.obj kvs) "matches" with
    | none =>
      have hOf : vulnMatchesOf (Json.obj kvs) = [] := by
        unfold vulnMatchesOf; rw [hr]
      have hB : vulnBody (Json.obj kvs) s = .ok s' := h
      unfold vulnBody at hB
      simp only [dget_obj, hr, Option.getD_none, pyIter] at hB
      rw [vulnLoop_wf [] s (by simp)] at hB
      rw [hOf]
      cases hB
      refine ⟨by simp, by simp, fun _ => by simp⟩
    | some v =>
      rw [hr] at hm
      cases v with
      | null => exact Bool.noConfusion hm
      | bool b => exact Bool.noConfusion hm
      | num n => exact Bool.noConfusion hm
      | str t => exact Bool.noConfusion hm
      | obj okvs => exact Bool.noConfusion hm
      | arr ms =>
        have hall : ms.all vulnMatchWF = true := hm
        have hAll : ∀ x ∈ ms, vulnMatchWF x = true := by
          simpa only [List.all_eq_true] using hall
        have hOf : vulnMatchesOf (Json.obj kvs) = ms := by
          unfold vulnMatchesOf; rw [hr]
        have hB : vulnBody (Json.obj kvs) s = .ok s' := h
        unfold vulnBody at hB
        simp only [dget_obj, hr, Option.getD_some, pyIter] at hB
        rw [vulnLoop_wf ms s hAll] at hB
        rw [hOf]
        cases hB
        refine ⟨rfl, ?_, ?_⟩
        · intro i hi
          simp only [List.mem_map] at hi
          obtain ⟨x, _, rfl⟩ := hi
          rfl
        · intro hAllLow
          simp [filter_eq_nil_of_all_not _ _ hAllLow]

theorem c7_witness :
    c7res.security_issues =
      initialReport.security_issues ++
        ((vulnMatchesOf c7Input).filter matchIsHighCrit).map vulnIssueOf :=
  (c7_vuln_loader_appends c7Input initialReport c7res (by decide) rfl).1
